import Mathlib

/-!
The router7 file `cmd/captured/ssh.go`: session requests and the channel handler

A shallow embedding of `handleChannel` and `session.request`.

* Go strings are modelled as Lean `String`s (sequences of Unicode code points,
  that is, valid UTF-8 text).  The only byte-level test in the source,
  `errmsg[len(errmsg)-1] != '\n'`, agrees with the test on the last code point,
  because in UTF-8 the byte `0x0A` only ever encodes the character `'\n'`.
* Calls into the SSH channel, the pcap writer and the capture handles are
  recorded as a trace of `Event`s in program order.  The outcome of each such
  call (success or an error text) is supplied by an `Env`.
* The producer goroutines started by `session.request` are modelled by a small
  state machine (`producerStep`) and interleaved with the events of the
  requesting goroutine in a `World`.
* `log.Printf` calls are not recorded: they touch neither the channel, nor a
  capture handle, nor a request.
-/

namespace Captured

/-! ## Data model -/

/-- The `ssh.Request` fields read by `session.request`. -/
structure Request where
  type : String
  wantReply : Bool
  payload : List Nat
deriving DecidableEq, Repr

/-- The `gopacket.CaptureInfo` of a packet. -/
structure CaptureInfo where
  timestamp : Nat
  captureLength : Nat
  length : Nat
  interfaceIndex : Nat
deriving DecidableEq, Repr

/-- A `gopacket.Packet`: its metadata and its raw bytes. -/
structure Packet where
  ci : CaptureInfo
  data : List Nat
deriving DecidableEq, Repr

/-- The value of `layers.LinkTypeEthernet`. -/
def LinkTypeEthernet : Nat := 1

/-- The calls made by the goroutine that runs `handleChannel` and
`session.request`, in program order.  A `Bool` argument named `ok` records
whether the call returned a nil error. -/
inductive Event where
  /-- The call `newChannel.Reject(ssh.UnknownChannelType, msg)`. -/
  | reject (msg : String)
  /-- The call `newChannel.Accept()`. -/
  | accept (ok : Bool)
  /-- The call `req.Reply(ok, payload)`; `none` is a nil payload. -/
  | reply (ok : Bool) (payload : Option String)
  /-- The call `channel.Write(b)`. -/
  | chanWrite (b : String)
  /-- The call `channel.Close()`. -/
  | chanClose
  /-- The call `pcapw.WriteFileHeader(snaplen, linktype)`. -/
  | writeFileHeader (snaplen : Nat) (linktype : Nat) (ok : Bool)
  /-- The call `pcapw.WritePacket(ci, data)`. -/
  | writePacket (ci : CaptureInfo) (data : List Nat) (ok : Bool)
  /-- The call `pcapgo.OpenEthernet(ifname)`. -/
  | openEthernet (ifname : String) (ok : Bool)
  /-- The call `handle.SetBPF(instructions)` on the handle of `ifname`. -/
  | setBPF (ifname : String) (ok : Bool)
  /-- The `go func() ...` statement starting the producer of `ifname`. -/
  | goProducer (ifname : String)
  /-- One receive from the merge channel `packets`. -/
  | recv (p : Packet)
  /-- The deferred `canc()`. -/
  | cancel
deriving DecidableEq, Repr

/-- Outcomes of the external calls made while one request is served.  An
`Option String` is the returned `error`: `none` for nil, `some s` for an error
whose `Error()` text is `s`. -/
structure Env where
  /-- Error returned by `pcapw.WriteFileHeader`. -/
  writeFileHeader : Option String
  /-- Error returned by `pcapgo.OpenEthernet(ifname)`. -/
  openEthernet : String → Option String
  /-- Error returned by `handle.SetBPF(instructions)` on the handle of `ifname`. -/
  setBPF : String → Option String
  /-- The packets that arrive on the merge channel `packets`, in order, each
  with the error returned by `pcapw.WritePacket` for it.  After the last one no
  further packet ever arrives. -/
  packets : List (Packet × Option String)
  /-- The table behind `strconv.IsPrint` for code points above U+00FF. -/
  isPrintWide : Nat → Bool

/-- How a call of `session.request` ends: it returns an `error` (`none` is
nil), or it blocks forever on the receive from `packets`. -/
inductive Result where
  | returned (err : Option String)
  | blocked
deriving DecidableEq, Repr

/-! ## `fmt` verbs -/

/-- The digit table `lowerhex` of `strconv`. -/
def lowerhex : List Char := "0123456789abcdef".toList

/-- Hexadecimal digit of the low four bits of `n`. -/
def hexDigit (n : Nat) : Char := lowerhex.getD (n % 16) '0'

/-- The function `strconv.IsPrint`; the table for code points above U+00FF is
the parameter `wide`. -/
def IsPrint (wide : Nat → Bool) (r : Nat) : Bool :=
  if r ≤ 0xFF then
    if 0x20 ≤ r ∧ r < 0x7F then true
    else if 0xA1 ≤ r then r != 0xAD
    else false
  else wide r

/-- The function `appendEscapedRune` of `strconv` with `quote = '"'`,
`ASCIIonly = false`, `graphicOnly = false`: the text appended for rune `r`. -/
def appendEscapedRune (wide : Nat → Bool) (r : Char) : List Char :=
  if r = '"' ∨ r = '\\' then ['\\', r]
  else if IsPrint wide r.toNat then [r]
  else if r.toNat = 0x07 then ['\\', 'a']
  else if r.toNat = 0x08 then ['\\', 'b']
  else if r.toNat = 0x0C then ['\\', 'f']
  else if r.toNat = 0x0A then ['\\', 'n']
  else if r.toNat = 0x0D then ['\\', 'r']
  else if r.toNat = 0x09 then ['\\', 't']
  else if r.toNat = 0x0B then ['\\', 'v']
  else if r.toNat < 0x20 ∨ r.toNat = 0x7F then
    ['\\', 'x', hexDigit (r.toNat / 16), hexDigit r.toNat]
  else if r.toNat < 0x10000 then
    ['\\', 'u', hexDigit (r.toNat / 4096), hexDigit (r.toNat / 256),
      hexDigit (r.toNat / 16), hexDigit r.toNat]
  else
    ['\\', 'U', hexDigit (r.toNat / 268435456), hexDigit (r.toNat / 16777216),
      hexDigit (r.toNat / 1048576), hexDigit (r.toNat / 65536),
      hexDigit (r.toNat / 4096), hexDigit (r.toNat / 256),
      hexDigit (r.toNat / 16), hexDigit r.toNat]

/-- The loop of `appendQuotedWith` over the runes of the string. -/
def quoteRunes (wide : Nat → Bool) : List Char → List Char
  | [] => []
  | r :: rest => appendEscapedRune wide r ++ quoteRunes wide rest

/-- The verb `%q` applied to a string: `strconv.Quote`. -/
def quote (wide : Nat → Bool) (s : String) : String :=
  ⟨'"' :: (quoteRunes wide s.data ++ ['"'])⟩

/-! ## `session.request` -/

/-- The interface list of the `for _, ifname := range` loop. -/
def ifnames : List String := ["uplink0", "lan0"]

/-- The loop over the interfaces (lines 69 to 92): open the handle, attach the
filter, start the producer.  Returns the calls made and the error that ended
the loop early, if any. -/
def openLoop (env : Env) : List String → List Event × Option String
  | [] => ([], none)
  | ifname :: rest =>
    match env.openEthernet ifname with
    | some err => ([Event.openEthernet ifname false], some err)
    | none =>
      match env.setBPF ifname with
      | some err =>
        ([Event.openEthernet ifname true, Event.setBPF ifname false], some err)
      | none =>
        let r := openLoop env rest
        (Event.openEthernet ifname true :: Event.setBPF ifname true ::
          Event.goProducer ifname :: r.1, r.2)

/-- The loop `for packet := range packets` (lines 96 to 100).  The channel
`packets` is never closed, so the loop ends only by a failed `WritePacket`;
when no further packet arrives the receive blocks forever. -/
def streamLoop : List (Packet × Option String) → List Event × Result
  | [] => ([], Result.blocked)
  | (p, none) :: rest =>
    let r := streamLoop rest
    (Event.recv p :: Event.writePacket p.ci p.data true :: r.1, r.2)
  | (p, some err) :: _ =>
    ([Event.recv p, Event.writePacket p.ci p.data false],
      Result.returned (some ("pcap.WritePacket(): " ++ err)))

/-- The method `session.request`: the calls it makes and how it ends.  The
deferred `canc()` is registered after the payload check, so it runs on every
later return. -/
def request (env : Env) (req : Request) : List Event × Result :=
  if req.type = "exec" then
    if req.payload.length < 4 then
      ([], Result.returned (some ("exec request payload too short: got " ++
        toString req.payload.length ++ ", want >= " ++ toString 4)))
    else
      match env.writeFileHeader with
      | some err =>
        ([Event.writeFileHeader 1600 LinkTypeEthernet false, Event.cancel],
          Result.returned (some err))
      | none =>
        match openLoop env ifnames with
        | (opened, some err) =>
          (Event.writeFileHeader 1600 LinkTypeEthernet true :: opened ++ [Event.cancel],
            Result.returned (some err))
        | (opened, none) =>
          match streamLoop env.packets with
          | (streamed, Result.blocked) =>
            (Event.writeFileHeader 1600 LinkTypeEthernet true :: opened ++
              Event.reply true none :: streamed, Result.blocked)
          | (streamed, Result.returned err) =>
            (Event.writeFileHeader 1600 LinkTypeEthernet true :: opened ++
              Event.reply true none :: streamed ++ [Event.cancel], Result.returned err)
  else
    ([], Result.returned (some ("unknown request type: " ++ quote env.isPrintWide req.type)))

/-! ## `handleChannel` -/

/-- How the handler goroutine stands after the calls recorded so far. -/
inductive Status where
  /-- The loop body finished; the loop goes on to the next request. -/
  | running
  /-- The goroutine is blocked forever inside `session.request`. -/
  | blocked
  /-- The goroutine panicked (index out of range). -/
  | panicked
deriving DecidableEq, Repr

/-- Lines 34 to 39: the error text as bytes, with a newline appended when the
last byte is not one.  `none` is the run-time panic of `errmsg[len(errmsg)-1]`
on an empty text. -/
def errmsgOf (err : String) : Option String :=
  match err.data.getLast? with
  | none => none
  | some c => if c ≠ '\n' then some (err ++ "\n") else some err

/-- The calls of lines 40 to 42 for the message `errmsg`. -/
def deliver (errmsg : String) : List Event :=
  [Event.reply false (some errmsg), Event.chanWrite errmsg, Event.chanClose]

/-- The calls the loop body makes after `s.request(req)` ended with `r`. -/
def afterRequest : Result → List Event × Status
  | Result.blocked => ([], Status.blocked)
  | Result.returned none => ([], Status.running)
  | Result.returned (some err) =>
    match errmsgOf err with
    | none => ([], Status.panicked)
    | some errmsg => (deliver errmsg, Status.running)

/-- One iteration of the loop `for req := range requests` (lines 33 to 43). -/
def handleRequest (env : Env) (req : Request) : List Event × Status :=
  let r := request env req
  let a := afterRequest r.2
  (r.1 ++ a.1, a.2)

/-- The loop `for req := range requests` over the requests delivered on the
channel, each paired with the outcomes of the external calls made for it. -/
def serve : List (Request × Env) → List Event × Status
  | [] => ([], Status.running)
  | (req, env) :: rest =>
    match handleRequest env req with
    | (tr, Status.running) =>
      let r := serve rest
      (tr ++ r.1, r.2)
    | (tr, st) => (tr, st)

/-- A channel-open event: its declared type, the error of `Accept`, and the
requests later delivered on the accepted channel. -/
structure NewChannel where
  channelType : String
  acceptErr : Option String
  requests : List (Request × Env)
  isPrintWide : Nat → Bool

/-- The function `handleChannel` together with the goroutine it starts. -/
def handleChannel (nc : NewChannel) : List Event × Status :=
  if nc.channelType ≠ "session" then
    ([Event.reject ("unknown channel type: " ++ quote nc.isPrintWide nc.channelType)],
      Status.running)
  else
    match nc.acceptErr with
    | some _ => ([Event.accept false], Status.running)
    | none =>
      let r := serve nc.requests
      (Event.accept true :: r.1, r.2)

/-! ## Producer goroutines and capture handles -/

/-- Where the producer goroutine of lines 82 to 91 stands. -/
inductive ProducerState where
  /-- Blocked in `range pkgsrc.Packets()`, waiting for the next packet. -/
  | ranging
  /-- Blocked in the `select` with packet `p` in hand. -/
  | selecting (p : Packet)
  /-- Returned; the deferred `handle.Close()` has run. -/
  | exited
deriving DecidableEq, Repr

/-- What can wake a producer on its own (the send `packets <- packet` is a
joint step with the receive of the requesting goroutine). -/
inductive ProducerInput where
  /-- The channel `pkgsrc.Packets()` yields `p`. -/
  | packet (p : Packet)
  /-- The channel `pkgsrc.Packets()` is closed. -/
  | sourceClosed
  /-- The case `<-ctx.Done()` of the `select`. -/
  | done
deriving DecidableEq, Repr

/-- One step of the producer goroutine; `cancelled` says whether `ctx.Done()`
is closed. -/
def producerStep (cancelled : Bool) : ProducerState → ProducerInput → Option ProducerState
  | ProducerState.ranging, ProducerInput.packet p => some (ProducerState.selecting p)
  | ProducerState.ranging, ProducerInput.sourceClosed => some ProducerState.exited
  | ProducerState.selecting _, ProducerInput.done =>
    if cancelled then some ProducerState.exited else none
  | _, _ => none

/-- The capture handles that are open, the state of the context, and the
producer goroutines, during one call of `session.request`. -/
structure World where
  openHandles : List String
  cancelled : Bool
  producers : List (String × ProducerState)
deriving DecidableEq, Repr

/-- The world when `session.request` is entered. -/
def World.init : World := ⟨[], false, []⟩

/-- A step of the whole system: a call of the requesting goroutine, or a step
of the producer of one interface. -/
inductive Step where
  | main (e : Event)
  | producer (ifname : String) (i : ProducerInput)
deriving DecidableEq, Repr

/-- Hand packet `p` from the first producer that offers it in its `select` to
the receiver; that producer goes back to `range`. -/
def handOff (p : Packet) : List (String × ProducerState) → Option (List (String × ProducerState))
  | [] => none
  | (ifname, st) :: rest =>
    if st = ProducerState.selecting p then some ((ifname, ProducerState.ranging) :: rest)
    else (handOff p rest).map (fun r => (ifname, st) :: r)

/-- Replace the state of the producer of `ifname`. -/
def setProducer (ifname : String) (st : ProducerState) :
    List (String × ProducerState) → List (String × ProducerState)
  | [] => []
  | (n, s) :: rest =>
    if n = ifname then (n, st) :: rest else (n, s) :: setProducer ifname st rest

/-- One step of the system.  `none` means the step is not enabled. -/
def World.step (w : World) : Step → Option World
  | Step.main (Event.openEthernet ifname true) =>
    some { w with openHandles := ifname :: w.openHandles }
  | Step.main (Event.goProducer ifname) =>
    some { w with producers := (ifname, ProducerState.ranging) :: w.producers }
  | Step.main (Event.recv p) =>
    (handOff p w.producers).map (fun ps => { w with producers := ps })
  | Step.main Event.cancel => some { w with cancelled := true }
  | Step.main _ => some w
  | Step.producer ifname i =>
    match w.producers.lookup ifname with
    | none => none
    | some st =>
      match producerStep w.cancelled st i with
      | none => none
      | some ProducerState.exited =>
        some { w with
          openHandles := w.openHandles.filter (fun h => h != ifname)
          producers := setProducer ifname ProducerState.exited w.producers }
      | some st2 => some { w with producers := setProducer ifname st2 w.producers }

/-- Run the steps of a schedule in order. -/
def World.run (w : World) : List Step → Option World
  | [] => some w
  | s :: rest =>
    match w.step s with
    | none => none
    | some w2 => w2.run rest

/-- The steps of the requesting goroutine alone, no producer running in
between. -/
def mainSteps (tr : List Event) : List Step := tr.map Step.main

/-- The steps of a schedule in which only producers run. -/
def producerSteps (sched : List (String × ProducerInput)) : List Step :=
  sched.map (fun s => Step.producer s.1 s.2)

/-! ## Observations on traces -/

/-- Calls that put bytes on the channel. -/
def Event.isOutput : Event → Bool
  | Event.chanWrite _ => true
  | Event.writeFileHeader _ _ _ => true
  | Event.writePacket _ _ _ => true
  | _ => false

/-- Calls of `pcapw.WritePacket`. -/
def Event.isRecord : Event → Bool
  | Event.writePacket _ _ _ => true
  | _ => false

/-- Calls of `req.Reply`. -/
def Event.isReply : Event → Bool
  | Event.reply _ _ => true
  | _ => false

/-- Calls of `channel.Close`. -/
def Event.isClose : Event → Bool
  | Event.chanClose => true
  | _ => false

/-- The calls of the streaming loop: receives from `packets` and calls of
`pcapw.WritePacket`. -/
def Event.isStream : Event → Bool
  | Event.recv _ => true
  | Event.writePacket _ _ _ => true
  | _ => false

/-- The packets the streaming loop gets to: those up to and including the first
one whose `WritePacket` fails. -/
def handled : List (Packet × Option String) → List (Packet × Option String)
  | [] => []
  | (p, none) :: rest => (p, none) :: handled rest
  | (p, some err) :: _ => [(p, some err)]

/-- The error of the first `WritePacket` that fails, if any does. -/
def firstWriteError : List (Packet × Option String) → Option String
  | [] => none
  | (_, none) :: rest => firstWriteError rest
  | (_, some err) :: _ => some err

/-- The request is an "exec" request with a payload of at least 4 bytes, the
file header is written, and every interface opens and takes the filter. -/
def setupOk (env : Env) (req : Request) : Bool :=
  decide (req.type = "exec") && decide (4 ≤ req.payload.length) &&
    env.writeFileHeader.isNone && (openLoop env ifnames).2.isNone

/-- The text ends with a newline. -/
def endsWithNewline (s : String) : Prop := s.data.getLast? = some '\n'

/-- The text ends with a newline that is not preceded by another one. -/
def endsWithOneNewline (s : String) : Prop :=
  s.data.getLast? = some '\n' ∧ s.data.dropLast.getLast? ≠ some '\n'

/-- The text ends with two newlines. -/
def endsWithTwoNewlines (s : String) : Prop :=
  s.data.getLast? = some '\n' ∧ s.data.dropLast.getLast? = some '\n'

instance (s : String) : Decidable (endsWithTwoNewlines s) := by
  unfold endsWithTwoNewlines; infer_instance

instance (s : String) : Decidable (endsWithNewline s) := by
  unfold endsWithNewline; infer_instance

instance (s : String) : Decidable (endsWithOneNewline s) := by
  unfold endsWithOneNewline; infer_instance

/-- The text with a newline appended unless it already ends with one. -/
def newlineTerminated (s : String) : String :=
  if endsWithNewline s then s else s ++ "\n"

/-- The request fails with a non-empty error text, so that the loop body
delivers the error and the loop goes on. -/
def failsCleanly (q : Request × Env) : Bool :=
  match (request q.2 q.1).2 with
  | Result.returned (some err) => err.data != []
  | _ => false

/-! ## Concrete inputs -/

/-- An `exec` request with a four-byte payload (an empty command). -/
def execReq : Request := ⟨"exec", true, [0, 0, 0, 0]⟩

/-- Every external call succeeds and no packet arrives. -/
def envIdle : Env := ⟨none, fun _ => none, fun _ => none, [], fun _ => false⟩

/-- A full-size Ethernet frame of 60 bytes. -/
def pkt60 : Packet := ⟨⟨0, 60, 60, 0⟩, List.replicate 60 0⟩

/-- A frame of 2000 bytes, as read from an interface with a large MTU. -/
def pkt2000 : Packet := ⟨⟨0, 2000, 2000, 0⟩, List.replicate 2000 0⟩

/-- Every external call succeeds and one 60-byte frame arrives and is
written. -/
def envOnePacket : Env :=
  ⟨none, fun _ => none, fun _ => none, [(pkt60, none)], fun _ => false⟩

/-- Every external call succeeds and one 2000-byte frame arrives and is
written. -/
def envBigPacket : Env :=
  ⟨none, fun _ => none, fun _ => none, [(pkt2000, none)], fun _ => false⟩

/-- Setup succeeds, one frame arrives, and writing it fails with "EOF" (the
client has gone away). -/
def envWriteFails : Env :=
  ⟨none, fun _ => none, fun _ => none, [(pkt60, some "EOF")], fun _ => false⟩

/-- Interface "uplink0" opens and takes the filter, "lan0" fails to open. -/
def envLanDown : Env :=
  ⟨none, fun n => if n = "lan0" then some "no such device" else none,
    fun _ => none, [], fun _ => false⟩

/-- Interface "uplink0" opens, attaching the filter to it fails. -/
def envBpfFails : Env :=
  ⟨none, fun _ => none,
    fun n => if n = "uplink0" then some "invalid argument" else none, [],
    fun _ => false⟩

/-- Writing the file header fails with an error whose text is empty. -/
def envEmptyErr : Env :=
  ⟨some "", fun _ => none, fun _ => none, [], fun _ => false⟩

/-- Writing the file header fails with an error whose text ends with two
newlines. -/
def envTwoNewlines : Env :=
  ⟨some "write failed\n\n", fun _ => none, fun _ => none, [], fun _ => false⟩

/-- Writing the file header fails with "EOF". -/
def envHeaderFails : Env :=
  ⟨some "EOF", fun _ => none, fun _ => none, [], fun _ => false⟩

/-- A request whose type contains a double quote. -/
def quotedReq : Request := ⟨"a\"b", true, []⟩

/-- A "shell" request. -/
def shellReq : Request := ⟨"shell", true, []⟩

/-- An "env" request. -/
def envReq : Request := ⟨"env", true, []⟩


/-! ## Shape of the traces -/

theorem openLoop_events (env : Env) (l : List String) :
    ∀ e ∈ (openLoop env l).1,
      (∃ n b, e = Event.openEthernet n b) ∨ (∃ n b, e = Event.setBPF n b) ∨
        (∃ n, e = Event.goProducer n) := by
  induction l with
  | nil => simp [openLoop]
  | cons n rest ih =>
    intro e he
    unfold openLoop at he
    split at he
    · simp at he; subst he; exact Or.inl ⟨_, _, rfl⟩
    · split at he
      · simp at he
        rcases he with rfl | rfl
        · exact Or.inl ⟨_, _, rfl⟩
        · exact Or.inr (Or.inl ⟨_, _, rfl⟩)
      · simp only [List.mem_cons] at he
        rcases he with rfl | rfl | rfl | he
        · exact Or.inl ⟨_, _, rfl⟩
        · exact Or.inr (Or.inl ⟨_, _, rfl⟩)
        · exact Or.inr (Or.inr ⟨_, rfl⟩)
        · exact ih e he

theorem streamLoop_events (pkts : List (Packet × Option String)) :
    ∀ e ∈ (streamLoop pkts).1,
      (∃ p, e = Event.recv p) ∨
        (∃ q ∈ pkts, e = Event.writePacket q.1.ci q.1.data q.2.isNone) := by
  induction pkts with
  | nil => simp [streamLoop]
  | cons q rest ih =>
    intro e he
    rcases q with ⟨p, _ | err⟩
    · simp only [streamLoop, List.mem_cons] at he
      rcases he with rfl | rfl | he
      · exact Or.inl ⟨_, rfl⟩
      · exact Or.inr ⟨(p, none), by simp, rfl⟩
      · rcases ih e he with h | ⟨q, hq, rfl⟩
        · exact Or.inl h
        · exact Or.inr ⟨q, by simp [hq], rfl⟩
    · simp only [streamLoop, List.mem_cons, List.mem_singleton] at he
      rcases he with rfl | rfl | he
      · exact Or.inl ⟨_, rfl⟩
      · exact Or.inr ⟨(p, some err), by simp, rfl⟩
      · simp at he

theorem streamLoop_ne_nil (pkts : List (Packet × Option String)) :
    (streamLoop pkts).2 ≠ Result.returned none := by
  induction pkts with
  | nil => simp [streamLoop]
  | cons q rest ih =>
    rcases q with ⟨p, _ | err⟩
    · simpa [streamLoop] using ih
    · simp [streamLoop]

theorem openLoop_filter_isOutput (env : Env) (l : List String) :
    (openLoop env l).1.filter Event.isOutput = [] := by
  rw [List.filter_eq_nil_iff]
  intro e he
  rcases openLoop_events env l e he with ⟨n, b, rfl⟩ | ⟨n, b, rfl⟩ | ⟨n, rfl⟩ <;>
    simp [Event.isOutput]

theorem openLoop_no_reply (env : Env) (l : List String) (ok : Bool) (pl : Option String) :
    Event.reply ok pl ∉ (openLoop env l).1 := by
  intro he
  rcases openLoop_events env l _ he with ⟨n, b, h⟩ | ⟨n, b, h⟩ | ⟨n, h⟩ <;> cases h

theorem streamLoop_filter_isOutput (pkts : List (Packet × Option String)) :
    ∀ e ∈ (streamLoop pkts).1.filter Event.isOutput,
      ∃ ci d ok, e = Event.writePacket ci d ok := by
  intro e he
  rw [List.mem_filter] at he
  rcases streamLoop_events pkts e he.1 with ⟨p, rfl⟩ | ⟨q, _, rfl⟩
  · simp [Event.isOutput] at he
  · exact ⟨_, _, _, rfl⟩

/-! ## The claims -/

/-- C1: an "exec" request whose payload has fewer than 4 bytes makes
`session.request` return the error "exec request payload too short: got n,
want >= 4", with n the payload length in decimal, and the call makes no call at
all before it returns: nothing is written, no handle is opened, no reply is
sent. -/
theorem request_exec_payload_too_short (env : Env) (req : Request)
    (ht : req.type = "exec") (hn : req.payload.length < 4) :
    request env req = ([], Result.returned (some
      ("exec request payload too short: got " ++ toString req.payload.length ++
        ", want >= 4"))) := by
  have h4 : (toString 4 : String) = "4" := by decide
  simp [request, ht, hn, h4, String.append_assoc]

theorem request_exec_payload_too_short_witness :
    (⟨"exec", true, [0, 0]⟩ : Request).type = "exec" ∧
      (⟨"exec", true, [0, 0]⟩ : Request).payload.length < 4 ∧
      request envIdle ⟨"exec", true, [0, 0]⟩ = ([], Result.returned (some
        "exec request payload too short: got 2, want >= 4")) :=
  ⟨rfl, by decide, request_exec_payload_too_short envIdle ⟨"exec", true, [0, 0]⟩ rfl (by decide)⟩


/-- C5: when `session.request` acknowledges an "exec" request positively, the
calls that put bytes on the channel during that call are one
`WriteFileHeader(1600, LinkTypeEthernet)` that succeeded, followed only by
`WritePacket` calls: the header comes first and there is no second header. -/
theorem request_acked_header_first (env : Env) (req : Request)
    (hack : Event.reply true none ∈ (request env req).1) :
    ∃ recs, (request env req).1.filter Event.isOutput =
        Event.writeFileHeader 1600 LinkTypeEthernet true :: recs ∧
      ∀ e ∈ recs, ∃ ci d ok, e = Event.writePacket ci d ok := by
  unfold request at hack ⊢
  split_ifs at hack ⊢ with ht hn
  · simp at hack
  · rcases hw : env.writeFileHeader with _ | werr
    · rcases ho : openLoop env ifnames with ⟨opened, _ | oerr⟩
      · have hopened : opened.filter Event.isOutput = [] := by
          have := openLoop_filter_isOutput env ifnames
          rwa [ho] at this
        rcases hs : streamLoop env.packets with ⟨streamed, err | _⟩
        · refine ⟨streamed.filter Event.isOutput, ?_, ?_⟩
          · simp [hopened, Event.isOutput, List.filter_cons]
          · have := streamLoop_filter_isOutput env.packets
            rwa [hs] at this
        · refine ⟨streamed.filter Event.isOutput, ?_, ?_⟩
          · simp [hopened, Event.isOutput, List.filter_cons]
          · have := streamLoop_filter_isOutput env.packets
            rwa [hs] at this
      · rw [hw, ho] at hack
        simp at hack
        have := openLoop_no_reply env ifnames true none
        rw [ho] at this
        exact absurd hack this
    · rw [hw] at hack
      simp at hack
  · simp at hack

theorem request_acked_header_first_witness :
    Event.reply true none ∈ (request envOnePacket execReq).1 ∧
      ∃ recs, (request envOnePacket execReq).1.filter Event.isOutput =
          Event.writeFileHeader 1600 LinkTypeEthernet true :: recs ∧
        ∀ e ∈ recs, ∃ ci d ok, e = Event.writePacket ci d ok :=
  ⟨by decide, request_acked_header_first envOnePacket execReq (by decide)⟩

/-- C6 (as stated, refuted): a 2000-byte frame received from the merge channel
is handed to `WritePacket` with captured length 2000, above the snapshot
length 1600 declared in the header written by the same call. -/
theorem request_record_exceeds_snaplen :
    (request envBigPacket execReq).1.filter Event.isOutput =
        [Event.writeFileHeader 1600 LinkTypeEthernet true,
          Event.writePacket pkt2000.ci pkt2000.data true] ∧
      pkt2000.ci.captureLength = 2000 ∧ ¬ (pkt2000.ci.captureLength ≤ 1600) := by
  have h : (request envBigPacket execReq).1 =
      [Event.writeFileHeader 1600 LinkTypeEthernet true,
        Event.openEthernet "uplink0" true, Event.setBPF "uplink0" true,
        Event.goProducer "uplink0", Event.openEthernet "lan0" true,
        Event.setBPF "lan0" true, Event.goProducer "lan0", Event.reply true none,
        Event.recv pkt2000, Event.writePacket pkt2000.ci pkt2000.data true] := rfl
  rw [h]
  exact ⟨rfl, rfl, by decide⟩

/-- Every `WritePacket` call of `session.request` carries the capture info and
the data of one of the packets of the merge channel. -/
theorem writePacket_mem_request (env : Env) (req : Request)
    (ci : CaptureInfo) (d : List Nat) (ok : Bool)
    (hrec : Event.writePacket ci d ok ∈ (request env req).1) :
    (∃ q ∈ env.packets, ci = q.1.ci ∧ d = q.1.data ∧ ok = q.2.isNone) ∧
      ((∀ q ∈ env.packets, q.1.ci.captureLength ≤ 1600) → ci.captureLength ≤ 1600) := by
  have key : ∃ q ∈ env.packets, ci = q.1.ci ∧ d = q.1.data ∧ ok = q.2.isNone := by
    have hstream : Event.writePacket ci d ok ∈ (streamLoop env.packets).1 := by
      unfold request at hrec
      split_ifs at hrec with ht hn
      · simp at hrec
      · rcases hw : env.writeFileHeader with _ | werr
        · rcases ho : openLoop env ifnames with ⟨opened, _ | oerr⟩
          · have hopen : Event.writePacket ci d ok ∉ opened := by
              intro he
              have := openLoop_events env ifnames _ (by rw [ho]; exact he)
              rcases this with ⟨n, b, h⟩ | ⟨n, b, h⟩ | ⟨n, h⟩ <;> cases h
            rw [hw, ho] at hrec
            rcases hs : streamLoop env.packets with ⟨streamed, err | _⟩
            · rw [hs] at hrec
              simp [hopen] at hrec
              exact hrec
            · rw [hs] at hrec
              simp [hopen] at hrec
              exact hrec
          · rw [hw, ho] at hrec
            simp at hrec
            have := openLoop_events env ifnames _ (by rw [ho]; exact hrec)
            rcases this with ⟨n, b, h⟩ | ⟨n, b, h⟩ | ⟨n, h⟩ <;> cases h
        · rw [hw] at hrec
          simp at hrec
      · simp at hrec
    rcases streamLoop_events env.packets _ hstream with ⟨p, h⟩ | ⟨q, hq, h⟩
    · cases h
    · injection h with h1 h2 h3
      exact ⟨q, hq, h1, h2, h3⟩
  refine ⟨key, ?_⟩
  intro hall
  obtain ⟨q, hq, h1, _, _⟩ := key
  rw [h1]
  exact hall q hq

/-! ### Error delivery -/

theorem errmsgOf_empty : errmsgOf "" = none := rfl

theorem errmsgOf_of_ne (e : String) (hne : e ≠ "") :
    errmsgOf e = some (if endsWithNewline e then e else e ++ "\n") := by
  have hdata : e.data ≠ [] := by
    intro h
    apply hne
    cases e
    simp_all
  rcases hl : e.data.getLast? with _ | c
  · rw [List.getLast?_eq_none_iff] at hl
    exact absurd hl hdata
  · by_cases hc : c = '\n'
    · have h : endsWithNewline e := by rw [endsWithNewline, hl, hc]
      simp [errmsgOf, hl, hc, h]
    · have h : ¬ endsWithNewline e := by
        rw [endsWithNewline, hl]
        simpa using hc
      simp [errmsgOf, hl, hc, h]

theorem errmsg_endsWithNewline (e : String) :
    endsWithNewline (if endsWithNewline e then e else e ++ "\n") := by
  by_cases h : endsWithNewline e
  · simp [h]
  · simp only [h, if_false]
    unfold endsWithNewline
    have : ("\n" : String).data = ['\n'] := rfl
    rw [String.data_append, this]
    simp

theorem errmsg_endsWithOneNewline (e : String) :
    endsWithOneNewline (if endsWithNewline e then e else e ++ "\n") ↔
      ¬ endsWithTwoNewlines e := by
  by_cases h : endsWithNewline e
  · simp only [h, if_true]
    unfold endsWithNewline at h
    simp [endsWithOneNewline, endsWithTwoNewlines, h]
  · simp only [h, if_false]
    have hd : ("\n" : String).data = ['\n'] := rfl
    unfold endsWithNewline at h
    simp [endsWithOneNewline, endsWithTwoNewlines, String.data_append, hd, h]

/-- Whenever `session.request` returns an error with a non-empty text, the loop
body makes exactly three further calls: the negative reply, the write and the
close, the first two with the same newline-terminated bytes. -/
theorem handleRequest_of_error (env : Env) (req : Request) (e : String)
    (hret : (request env req).2 = Result.returned (some e)) (hne : e ≠ "") :
    handleRequest env req =
      ((request env req).1 ++
        [Event.reply false (some (if endsWithNewline e then e else e ++ "\n")),
          Event.chanWrite (if endsWithNewline e then e else e ++ "\n"),
          Event.chanClose], Status.running) := by
  simp only [handleRequest, hret, afterRequest, errmsgOf_of_ne e hne, deliver]

/-- C2 (the code at the failing input): the header write fails with an error
whose text is empty, `session.request` returns that error, and the loop body
then makes no reply, no write and no close: the index `errmsg[len(errmsg)-1]`
panics. -/
theorem handleRequest_empty_error_panics :
    request envEmptyErr execReq =
        ([Event.writeFileHeader 1600 LinkTypeEthernet false, Event.cancel],
          Result.returned (some "")) ∧
      handleRequest envEmptyErr execReq =
        ([Event.writeFileHeader 1600 LinkTypeEthernet false, Event.cancel],
          Status.panicked) := by
  decide

/-- C3 (as stated, refuted): an error text that ends with two newlines is
delivered unchanged, so the delivered message ends with two newlines, not with
exactly one. -/
theorem handleRequest_two_newlines :
    handleRequest envTwoNewlines execReq =
        ([Event.writeFileHeader 1600 LinkTypeEthernet false, Event.cancel,
          Event.reply false (some "write failed\n\n"),
          Event.chanWrite "write failed\n\n", Event.chanClose], Status.running) ∧
      ¬ endsWithOneNewline "write failed\n\n" := by
  decide

/-- C3 (amended): for every non-empty error text `e` returned by
`session.request`, the message delivered by the loop body is `e` itself when
`e` ends with a newline and `e` followed by one newline otherwise; it always
ends with a newline, and it ends with exactly one newline if and only if `e`
does not already end with two. -/
theorem handleRequest_message_newline (env : Env) (req : Request) (e : String)
    (hret : (request env req).2 = Result.returned (some e)) (hne : e ≠ "") :
    ∃ m, handleRequest env req = ((request env req).1 ++ deliver m, Status.running) ∧
      m = (if endsWithNewline e then e else e ++ "\n") ∧
      endsWithNewline m ∧
      (endsWithOneNewline m ↔ ¬ endsWithTwoNewlines e) :=
  ⟨_, handleRequest_of_error env req e hret hne, rfl, errmsg_endsWithNewline e,
    errmsg_endsWithOneNewline e⟩

theorem handleRequest_message_newline_witness :
    (request envHeaderFails execReq).2 = Result.returned (some "EOF") ∧
      ("EOF" : String) ≠ "" ∧
      ∃ m, handleRequest envHeaderFails execReq =
          ((request envHeaderFails execReq).1 ++ deliver m, Status.running) ∧
        m = (if endsWithNewline "EOF" then "EOF" else "EOF" ++ "\n") ∧
        endsWithNewline m ∧
        (endsWithOneNewline m ↔ ¬ endsWithTwoNewlines "EOF") :=
  ⟨by decide, by decide,
    handleRequest_message_newline envHeaderFails execReq "EOF" (by decide) (by decide)⟩

/-! ### Unknown request types -/

theorem quoteRunes_plain (wide : Nat → Bool) (l : List Char)
    (h : ∀ c ∈ l, c ≠ '"' ∧ c ≠ '\\' ∧ IsPrint wide c.toNat = true) :
    quoteRunes wide l = l := by
  induction l with
  | nil => rfl
  | cons c rest ih =>
    have hc := h c (by simp)
    have hrest := ih (fun d hd => h d (by simp [hd]))
    simp [quoteRunes, appendEscapedRune, hc.1, hc.2.1, hc.2.2, hrest]

/-- C4 (as stated, refuted): for the request type `a"b` the error text is
`unknown request type: "a\"b"`, in which the double quote is escaped; the type
string itself does not occur in it. -/
theorem request_quoted_type_not_substring :
    quotedReq.type ≠ "exec" ∧
      request envIdle quotedReq =
        ([], Result.returned (some "unknown request type: \"a\\\"b\"")) ∧
      ¬ (quotedReq.type.data <:+: ("unknown request type: \"a\\\"b\"" : String).data) := by
  decide

/-- C4 (amended): for every request whose type `t` is not "exec",
`session.request` makes no call and returns the error "unknown request type: "
followed by `t` in Go-quoted form (`%q`); the message contains `t` itself as a
contiguous substring whenever every character of `t` is printable and is
neither a double quote nor a backslash. -/
theorem request_unknown_type (env : Env) (req : Request) (ht : req.type ≠ "exec") :
    request env req =
        ([], Result.returned (some
          ("unknown request type: " ++ quote env.isPrintWide req.type))) ∧
      ((∀ c ∈ req.type.data,
          c ≠ '"' ∧ c ≠ '\\' ∧ IsPrint env.isPrintWide c.toNat = true) →
        req.type.data <:+:
          ("unknown request type: " ++ quote env.isPrintWide req.type).data) := by
  refine ⟨by simp [request, ht], ?_⟩
  intro h
  rw [String.data_append]
  simp only [quote, quoteRunes_plain env.isPrintWide req.type.data h]
  exact ⟨("unknown request type: " : String).data ++ ['"'], ['"'], by simp⟩

theorem request_unknown_type_witness :
    shellReq.type ≠ "exec" ∧
      (request envIdle shellReq =
          ([], Result.returned (some
            ("unknown request type: " ++ quote envIdle.isPrintWide shellReq.type))) ∧
        ((∀ c ∈ shellReq.type.data,
            c ≠ '"' ∧ c ≠ '\\' ∧ IsPrint envIdle.isPrintWide c.toNat = true) →
          shellReq.type.data <:+:
            ("unknown request type: " ++ quote envIdle.isPrintWide shellReq.type).data)) :=
  ⟨by decide, request_unknown_type envIdle shellReq (by decide)⟩

/-! ### Capture handles on the failure paths of the setup -/

/-- C7 (as stated, refuted): "uplink0" opens and takes the filter, "lan0" fails
to open.  `session.request` returns the error of "lan0"; its own calls contain
no close of the handle of "uplink0", and in the world reached when it returns
without the producer having run, that handle is still open. -/
theorem request_lan_down_handle_still_open :
    request envLanDown execReq =
        ([Event.writeFileHeader 1600 LinkTypeEthernet true,
          Event.openEthernet "uplink0" true, Event.setBPF "uplink0" true,
          Event.goProducer "uplink0", Event.openEthernet "lan0" false, Event.cancel],
          Result.returned (some "no such device")) ∧
      World.init.run (mainSteps (request envLanDown execReq).1) =
        some ⟨["uplink0"], true, [("uplink0", ProducerState.ranging)]⟩ := by
  decide

/-- C7 (amended): if "uplink0" opens and takes the filter and "lan0" then fails
to open, `session.request` starts the producer of "uplink0", cancels the
context and returns the error of "lan0".  It does not close the handle of
"uplink0" itself: when it returns with the producer not having run, the handle
is open and the producer is still waiting.  The handle is closed by the
producer: after its next packet it takes the `ctx.Done()` case and exits, or it
exits when its packet source is closed. -/
theorem request_second_open_fails (env : Env) (req : Request) (e : String)
    (ht : req.type = "exec") (hn : 4 ≤ req.payload.length)
    (hw : env.writeFileHeader = none) (ho : env.openEthernet "uplink0" = none)
    (hb : env.setBPF "uplink0" = none) (hl : env.openEthernet "lan0" = some e) :
    request env req =
        ([Event.writeFileHeader 1600 LinkTypeEthernet true,
          Event.openEthernet "uplink0" true, Event.setBPF "uplink0" true,
          Event.goProducer "uplink0", Event.openEthernet "lan0" false, Event.cancel],
          Result.returned (some e)) ∧
      World.init.run (mainSteps (request env req).1) =
        some ⟨["uplink0"], true, [("uplink0", ProducerState.ranging)]⟩ ∧
      (∀ p, World.init.run (mainSteps (request env req).1 ++
          producerSteps [("uplink0", ProducerInput.packet p),
            ("uplink0", ProducerInput.done)]) =
        some ⟨[], true, [("uplink0", ProducerState.exited)]⟩) ∧
      World.init.run (mainSteps (request env req).1 ++
          producerSteps [("uplink0", ProducerInput.sourceClosed)]) =
        some ⟨[], true, [("uplink0", ProducerState.exited)]⟩ := by
  have hreq : request env req =
      ([Event.writeFileHeader 1600 LinkTypeEthernet true,
        Event.openEthernet "uplink0" true, Event.setBPF "uplink0" true,
        Event.goProducer "uplink0", Event.openEthernet "lan0" false, Event.cancel],
        Result.returned (some e)) := by
    simp [request, ht, Nat.not_lt.mpr hn, hw, openLoop, ifnames, ho, hb, hl]
  refine ⟨hreq, ?_, ?_, ?_⟩
  · rw [hreq]; rfl
  · intro p
    rw [hreq]
    simp [mainSteps, producerSteps, World.run, World.step, World.init, producerStep,
      setProducer, List.lookup]
  · rw [hreq]; rfl

theorem request_second_open_fails_witness :
    request envLanDown execReq =
        ([Event.writeFileHeader 1600 LinkTypeEthernet true,
          Event.openEthernet "uplink0" true, Event.setBPF "uplink0" true,
          Event.goProducer "uplink0", Event.openEthernet "lan0" false, Event.cancel],
          Result.returned (some "no such device")) ∧
      World.init.run (mainSteps (request envLanDown execReq).1) =
        some ⟨["uplink0"], true, [("uplink0", ProducerState.ranging)]⟩ ∧
      (∀ p, World.init.run (mainSteps (request envLanDown execReq).1 ++
          producerSteps [("uplink0", ProducerInput.packet p),
            ("uplink0", ProducerInput.done)]) =
        some ⟨[], true, [("uplink0", ProducerState.exited)]⟩) ∧
      World.init.run (mainSteps (request envLanDown execReq).1 ++
          producerSteps [("uplink0", ProducerInput.sourceClosed)]) =
        some ⟨[], true, [("uplink0", ProducerState.exited)]⟩ :=
  request_second_open_fails envLanDown execReq "no such device" rfl (by decide) rfl rfl
    rfl rfl

theorem run_no_producers (opened : List String) (c : Bool)
    (sched : List (String × ProducerInput)) (w : World)
    (h : (World.mk opened c []).run (producerSteps sched) = some w) :
    w = World.mk opened c [] := by
  cases sched with
  | nil => simpa [producerSteps, World.run] using h.symm
  | cons s rest => simp [producerSteps, World.run, World.step, List.lookup] at h

/-- C8 (the code at the failing input): "uplink0" opens and attaching the filter
to it fails.  `session.request` returns the attach error without closing the
handle and without starting the producer that holds the deferred `Close`; no
producer exists, so whatever runs afterwards the handle stays open. -/
theorem request_bpf_fails_handle_leaked :
    request envBpfFails execReq =
        ([Event.writeFileHeader 1600 LinkTypeEthernet true,
          Event.openEthernet "uplink0" true, Event.setBPF "uplink0" false, Event.cancel],
          Result.returned (some "invalid argument")) ∧
      World.init.run (mainSteps (request envBpfFails execReq).1) =
        some ⟨["uplink0"], true, []⟩ ∧
      ∀ sched w, (World.mk ["uplink0"] true []).run (producerSteps sched) = some w →
        "uplink0" ∈ w.openHandles := by
  refine ⟨by decide, by decide, ?_⟩
  intro sched w h
  rw [run_no_producers _ _ sched w h]
  simp

/-! ### Replies and closes -/

theorem openLoop_filter_isReply (env : Env) (l : List String) :
    (openLoop env l).1.filter Event.isReply = [] := by
  rw [List.filter_eq_nil_iff]
  intro e he
  rcases openLoop_events env l e he with ⟨n, b, rfl⟩ | ⟨n, b, rfl⟩ | ⟨n, rfl⟩ <;>
    simp [Event.isReply]

theorem streamLoop_filter_isReply (pkts : List (Packet × Option String)) :
    (streamLoop pkts).1.filter Event.isReply = [] := by
  rw [List.filter_eq_nil_iff]
  intro e he
  rcases streamLoop_events pkts e he with ⟨p, rfl⟩ | ⟨q, _, rfl⟩ <;> simp [Event.isReply]

theorem openLoop_filter_isClose (env : Env) (l : List String) :
    (openLoop env l).1.filter Event.isClose = [] := by
  rw [List.filter_eq_nil_iff]
  intro e he
  rcases openLoop_events env l e he with ⟨n, b, rfl⟩ | ⟨n, b, rfl⟩ | ⟨n, rfl⟩ <;>
    simp [Event.isClose]

theorem streamLoop_filter_isClose (pkts : List (Packet × Option String)) :
    (streamLoop pkts).1.filter Event.isClose = [] := by
  rw [List.filter_eq_nil_iff]
  intro e he
  rcases streamLoop_events pkts e he with ⟨p, rfl⟩ | ⟨q, _, rfl⟩ <;> simp [Event.isClose]

theorem streamLoop_result (pkts : List (Packet × Option String)) :
    (streamLoop pkts).2 = Result.blocked ∨
      ∃ err, (streamLoop pkts).2 = Result.returned (some ("pcap.WritePacket(): " ++ err)) := by
  induction pkts with
  | nil => exact Or.inl rfl
  | cons q rest ih =>
    rcases q with ⟨p, _ | err⟩
    · simpa [streamLoop] using ih
    · exact Or.inr ⟨err, rfl⟩

/-- The ways a call of `session.request` can end, with the replies and closes
among its calls: it fails before the acknowledgment without any reply, or it
acknowledges and then blocks, or it acknowledges and then fails on a packet
write.  It never returns a nil error and never closes the channel. -/
theorem request_shape (env : Env) (req : Request) :
    (request env req).1.filter Event.isClose = [] ∧
      ((∃ e, (request env req).2 = Result.returned (some e) ∧
          (request env req).1.filter Event.isReply = []) ∨
        ((request env req).2 = Result.blocked ∧
          (request env req).1.filter Event.isReply = [Event.reply true none]) ∨
        (∃ err, (request env req).2 =
            Result.returned (some ("pcap.WritePacket(): " ++ err)) ∧
          (request env req).1.filter Event.isReply = [Event.reply true none])) := by
  unfold request
  split_ifs with ht hn
  · exact ⟨rfl, Or.inl ⟨_, rfl, rfl⟩⟩
  · rcases hw : env.writeFileHeader with _ | werr
    · have hoc := openLoop_filter_isClose env ifnames
      have hor := openLoop_filter_isReply env ifnames
      have hsc := streamLoop_filter_isClose env.packets
      have hsr := streamLoop_filter_isReply env.packets
      have hres := streamLoop_result env.packets
      rcases ho : openLoop env ifnames with ⟨opened, _ | oerr⟩
      · rw [ho] at hoc hor
        rcases hs : streamLoop env.packets with ⟨streamed, err | _⟩
        · rw [hs] at hsc hsr hres
          rcases hres with h | ⟨werr, h⟩
          · cases h
          · simp only at h
            refine ⟨?_, Or.inr (Or.inr ⟨werr, h, ?_⟩)⟩
            · simp [List.filter_cons, List.filter_append, hoc, hsc, Event.isClose]
            · simp [List.filter_cons, List.filter_append, hor, hsr, Event.isReply]
        · rw [hs] at hsc hsr
          refine ⟨?_, Or.inr (Or.inl ⟨rfl, ?_⟩)⟩
          · simp [List.filter_cons, List.filter_append, hoc, hsc, Event.isClose]
          · simp [List.filter_cons, List.filter_append, hor, hsr, Event.isReply]
      · rw [ho] at hoc hor
        refine ⟨?_, Or.inl ⟨oerr, rfl, ?_⟩⟩
        · simp [List.filter_cons, List.filter_append, hoc, hsc, Event.isClose]
        · simp [List.filter_cons, List.filter_append, hor, hsr, Event.isReply]
    · exact ⟨rfl, Or.inl ⟨werr, rfl, rfl⟩⟩
  · exact ⟨rfl, Or.inl ⟨_, rfl, rfl⟩⟩

theorem writePacket_error_ne_empty (err : String) : "pcap.WritePacket(): " ++ err ≠ "" := by
  intro h
  have := congrArg String.length h
  simp [String.length_append] at this
  have h2 : ("pcap.WritePacket(): " : String).length = 20 := by decide
  omega

theorem string_ne_empty_iff (e : String) : e ≠ "" ↔ e.data ≠ [] := by
  constructor
  · intro h hd
    apply h
    cases e
    simp_all
  · intro h he
    apply h
    rw [he]

theorem handleRequest_of_empty_error (env : Env) (req : Request)
    (hret : (request env req).2 = Result.returned (some "")) :
    handleRequest env req = ((request env req).1, Status.panicked) := by
  simp [handleRequest, hret, afterRequest, errmsgOf_empty]

theorem handleRequest_of_blocked (env : Env) (req : Request)
    (hret : (request env req).2 = Result.blocked) :
    handleRequest env req = ((request env req).1, Status.blocked) := by
  simp [handleRequest, hret, afterRequest]

/-- C10 (as stated, refuted): setup succeeds, the request is acknowledged with
a positive reply, writing the first packet fails, and the loop body then
answers the same request with a negative reply. -/
theorem positive_then_negative_reply :
    (handleRequest envWriteFails execReq).1.filter Event.isReply =
      [Event.reply true none, Event.reply false (some "pcap.WritePacket(): EOF\n")] := by
  decide

/-- C9 (as stated, refuted): two failing requests on one channel; the loop
replies to, writes for and closes on each of them, so the channel is closed
twice. -/
theorem serve_closes_twice :
    serve [(shellReq, envIdle), (envReq, envIdle)] =
        ([Event.reply false (some "unknown request type: \"shell\"\n"),
          Event.chanWrite "unknown request type: \"shell\"\n", Event.chanClose,
          Event.reply false (some "unknown request type: \"env\"\n"),
          Event.chanWrite "unknown request type: \"env\"\n", Event.chanClose],
          Status.running) ∧
      ((serve [(shellReq, envIdle), (envReq, envIdle)]).1.filter Event.isClose).length = 2 := by
  decide

/-- C9 (amended): for every finite sequence of requests delivered on one
channel, the loop closes the channel once for each request of the longest
initial run of requests that fail with a non-empty error text (a request that
does not fail so blocks or stops the loop).  The loop does not stop at a close:
each later failing request is replied to, written for and closed on again. -/
theorem serve_close_count (rs : List (Request × Env)) :
    ((serve rs).1.filter Event.isClose).length = (rs.takeWhile failsCleanly).length := by
  induction rs with
  | nil => rfl
  | cons q rest ih =>
    rcases q with ⟨req, env⟩
    have hclose := (request_shape env req).1
    have hcases : (∃ e, (request env req).2 = Result.returned (some e)) ∨
        (request env req).2 = Result.blocked := by
      rcases (request_shape env req).2 with ⟨e, h, _⟩ | ⟨h, _⟩ | ⟨err, h, _⟩
      · exact Or.inl ⟨e, h⟩
      · exact Or.inr h
      · exact Or.inl ⟨_, h⟩
    rcases hcases with ⟨e, hret⟩ | hret
    · by_cases he : e = ""
      · subst he
        have hf : failsCleanly (req, env) = false := by simp [failsCleanly, hret]
        simp [serve, handleRequest_of_empty_error env req hret, hclose,
          List.takeWhile_cons, hf]
      · have hf : failsCleanly (req, env) = true := by
          simp [failsCleanly, hret, (string_ne_empty_iff e).mp he]
        simp [serve, handleRequest_of_error env req e hret he, hclose,
          List.takeWhile_cons, hf, List.filter_append, List.filter_cons, Event.isClose, ih]
    · have hf : failsCleanly (req, env) = false := by simp [failsCleanly, hret]
      simp [serve, handleRequest_of_blocked env req hret, hclose,
        List.takeWhile_cons, hf]

/-! ### The streaming loop, call by call -/

theorem streamLoop_calls (pkts : List (Packet × Option String)) :
    (streamLoop pkts).1 = (handled pkts).flatMap
      (fun q => [Event.recv q.1, Event.writePacket q.1.ci q.1.data q.2.isNone]) := by
  induction pkts with
  | nil => rfl
  | cons q rest ih =>
    rcases q with ⟨p, _ | err⟩
    · simp [streamLoop, handled, ih]
    · simp [streamLoop, handled]

theorem streamLoop_result_eq (pkts : List (Packet × Option String)) :
    (streamLoop pkts).2 =
      match firstWriteError pkts with
      | some err => Result.returned (some ("pcap.WritePacket(): " ++ err))
      | none => Result.blocked := by
  induction pkts with
  | nil => rfl
  | cons q rest ih =>
    rcases q with ⟨p, _ | err⟩
    · simpa [streamLoop, firstWriteError] using ih
    · simp [streamLoop, firstWriteError]

theorem streamLoop_filter_isStream (pkts : List (Packet × Option String)) :
    (streamLoop pkts).1.filter Event.isStream = (streamLoop pkts).1 := by
  rw [List.filter_eq_self]
  intro e he
  rcases streamLoop_events pkts e he with ⟨p, rfl⟩ | ⟨q, _, rfl⟩ <;> rfl

theorem openLoop_filter_isStream (env : Env) (l : List String) :
    (openLoop env l).1.filter Event.isStream = [] := by
  rw [List.filter_eq_nil_iff]
  intro e he
  rcases openLoop_events env l e he with ⟨n, b, rfl⟩ | ⟨n, b, rfl⟩ | ⟨n, rfl⟩ <;>
    simp [Event.isStream]

/-- When the setup succeeds, the calls of `session.request` are the header
write, the calls of the interface loop, the positive reply, the calls of the
streaming loop and, if a packet write fails, the deferred cancel. -/
theorem request_of_setupOk (env : Env) (req : Request) (h : setupOk env req = true) :
    request env req =
      (Event.writeFileHeader 1600 LinkTypeEthernet true :: (openLoop env ifnames).1 ++
        Event.reply true none :: (streamLoop env.packets).1 ++
        (match firstWriteError env.packets with
          | some _ => [Event.cancel]
          | none => []),
        (streamLoop env.packets).2) := by
  simp only [setupOk, Bool.and_eq_true, decide_eq_true_eq, Option.isNone_iff_eq_none] at h
  obtain ⟨⟨⟨ht, hn⟩, hw⟩, ho⟩ := h
  have hres := streamLoop_result_eq env.packets
  unfold request
  rw [if_pos ht, if_neg (Nat.not_lt.mpr hn), hw]
  rcases hol : openLoop env ifnames with ⟨opened, oerr⟩
  rw [hol] at ho
  simp only at ho
  subst ho
  rcases hs : streamLoop env.packets with ⟨streamed, res⟩
  rw [hs] at hres
  simp only at hres
  rcases hf : firstWriteError env.packets with _ | err
  · rw [hf] at hres
    simp only at hres
    subst hres
    simp
  · rw [hf] at hres
    simp only at hres
    subst hres
    simp

/-- When the setup does not succeed, `session.request` returns an error without
a reply and without reaching the streaming loop. -/
theorem request_of_not_setupOk (env : Env) (req : Request) (h : setupOk env req = false) :
    ∃ e, (request env req).2 = Result.returned (some e) ∧
      (request env req).1.filter Event.isReply = [] ∧
      (request env req).1.filter Event.isStream = [] := by
  unfold request
  split_ifs with ht hn
  · exact ⟨_, rfl, rfl, rfl⟩
  · rcases hw : env.writeFileHeader with _ | werr
    · have hor := openLoop_filter_isReply env ifnames
      have hos := openLoop_filter_isStream env ifnames
      rcases ho : openLoop env ifnames with ⟨opened, _ | oerr⟩
      · exfalso
        have : setupOk env req = true := by
          simp [setupOk, ht, Nat.not_lt.mp hn, hw, ho]
        rw [h] at this
        cases this
      · rw [ho] at hor hos
        refine ⟨oerr, rfl, ?_, ?_⟩
        · simp [List.filter_cons, List.filter_append, hor, Event.isReply]
        · simp [List.filter_cons, List.filter_append, hos, Event.isStream]
    · exact ⟨werr, rfl, rfl, rfl⟩
  · exact ⟨_, rfl, rfl, rfl⟩

/-- C6 (amended): the receives and packet writes of `session.request` are, in
order, one receive followed by one `WritePacket` with the capture info and the
data of the packet just received, for each packet up to and including the
first whose write fails (and none at all when the setup fails).  Nothing is
truncated or checked against 1600, so the captured length of every record is
at most 1600 whenever the captured length of every packet of the merge channel
is. -/
theorem request_stream_calls (env : Env) (req : Request) :
    (request env req).1.filter Event.isStream =
        (if setupOk env req = true then
          (handled env.packets).flatMap
            (fun q => [Event.recv q.1, Event.writePacket q.1.ci q.1.data q.2.isNone])
        else []) ∧
      ((∀ q ∈ env.packets, q.1.ci.captureLength ≤ 1600) →
        ∀ ci d ok, Event.writePacket ci d ok ∈ (request env req).1 →
          ci.captureLength ≤ 1600) := by
  constructor
  · by_cases h : setupOk env req = true
    · rw [if_pos h, request_of_setupOk env req h]
      have hos := openLoop_filter_isStream env ifnames
      have hss := streamLoop_filter_isStream env.packets
      have htail : (match firstWriteError env.packets with
          | some _ => [Event.cancel]
          | none => []).filter Event.isStream = [] := by
        cases firstWriteError env.packets <;> rfl
      simp only [List.filter_cons, List.filter_append, hos, hss, htail, Event.isStream]
      simp [streamLoop_calls]
    · rw [if_neg h]
      obtain ⟨e, _, _, hs⟩ := request_of_not_setupOk env req (by simpa using h)
      exact hs
  · intro hall ci d ok hmem
    exact (writePacket_mem_request env req ci d ok hmem).2 hall

/-- C10 (amended): the replies to one request are fixed by how the request goes.
When the setup succeeds the request gets the positive reply, and after it one
negative reply, carrying the newline-terminated "pcap.WritePacket(): ..." text,
if and only if a packet write fails during streaming.  When the setup fails
(with a non-empty error text) the request gets one negative reply and no
positive one.  The request is acknowledged positively exactly when the setup
succeeds. -/
theorem handleRequest_reply_calls (env : Env) (req : Request) :
    (setupOk env req = true ↔ Event.reply true none ∈ (request env req).1) ∧
      (setupOk env req = true →
        (handleRequest env req).1.filter Event.isReply =
          Event.reply true none ::
            (match firstWriteError env.packets with
              | some err => [Event.reply false
                  (some (newlineTerminated ("pcap.WritePacket(): " ++ err)))]
              | none => [])) ∧
      (setupOk env req = false →
        ∃ e, (request env req).2 = Result.returned (some e) ∧
          (e ≠ "" → (handleRequest env req).1.filter Event.isReply =
            [Event.reply false (some (newlineTerminated e))])) := by
  have hpos : setupOk env req = true →
      (request env req).1.filter Event.isReply = [Event.reply true none] := by
    intro h
    rw [request_of_setupOk env req h]
    have hor := openLoop_filter_isReply env ifnames
    have hsr := streamLoop_filter_isReply env.packets
    have htail : (match firstWriteError env.packets with
        | some _ => [Event.cancel]
        | none => []).filter Event.isReply = [] := by
      cases firstWriteError env.packets <;> rfl
    simp [List.filter_cons, List.filter_append, hor, hsr, htail, Event.isReply]
  refine ⟨⟨?_, ?_⟩, ?_, ?_⟩
  · intro h
    have : Event.reply true none ∈ (request env req).1.filter Event.isReply := by
      rw [hpos h]; simp
    exact (List.mem_filter.mp this).1
  · intro hmem
    by_contra h
    obtain ⟨e, _, hr, _⟩ := request_of_not_setupOk env req (by simpa using h)
    have : Event.reply true none ∈ (request env req).1.filter Event.isReply :=
      List.mem_filter.mpr ⟨hmem, rfl⟩
    rw [hr] at this
    simp at this
  · intro h
    have hres : (request env req).2 = (streamLoop env.packets).2 := by
      rw [request_of_setupOk env req h]
    rw [streamLoop_result_eq] at hres
    rcases hf : firstWriteError env.packets with _ | err
    · rw [hf] at hres
      simp only at hres
      rw [handleRequest_of_blocked env req hres]
      exact hpos h
    · rw [hf] at hres
      simp only at hres
      rw [handleRequest_of_error env req _ hres (writePacket_error_ne_empty err)]
      simp [List.filter_append, hpos h, List.filter_cons, Event.isReply, newlineTerminated]
  · intro h
    obtain ⟨e, hret, hr, _⟩ := request_of_not_setupOk env req h
    refine ⟨e, hret, ?_⟩
    intro he
    rw [handleRequest_of_error env req e hret he]
    simp [List.filter_append, hr, List.filter_cons, Event.isReply, newlineTerminated]

end Captured
